import Mathlib

/-!
Verification development for the HealthCareDiseaseAnalysis dashboard
(`src/HealthCareDiseaseAnalysis2.py`).

The program queries a text-generation service for structured disease
information, extracts a triple-backtick-fenced JSON payload from the raw
response (`get_disease_info`), and renders the parsed value both as an
interactive view (`display_disease_info`) and as a static document
(`generate_pdf`).

The embedding models Python's dynamically typed values as `PyVal`, Python
exceptions as `PyErr` with computations in `Except PyErr`, and the external
library calls the source makes (`json.loads`, `str.strip`, `float`,
`str.join`, Streamlit and FPDF output calls) as faithful executable
functions over `PyVal`.  The network round trip to the service is external
to the repository, so the extractor is modelled as a function of the raw
response text it receives.
-/

namespace Health

/-- Python runtime values, as produced by `json.loads` and consumed by the
renderers.  JSON numbers without a fractional part or exponent become `int`,
others become `float` (modelled as a rational). -/
inductive PyVal where
  | none
  | bool (b : Bool)
  | int (n : Int)
  | float (q : ℚ)
  | str (s : String)
  | list (elts : List PyVal)
  | dict (entries : List (String × PyVal))
deriving Repr

/-- Python exceptions that the source code can raise. -/
inductive PyErr where
  | attributeError
  | typeError
  | valueError
deriving DecidableEq, Repr

/-- Python truthiness (`bool(x)`), used by `if not info`. -/
def pyFalsy : PyVal → Bool
  | .none => true
  | .bool b => !b
  | .int n => n = 0
  | .float q => q = 0
  | .str s => s = ""
  | .list elts => elts.isEmpty
  | .dict entries => entries.isEmpty

/-- The opening-brace character, kept as a named constant. -/
def lbrace : Char := Char.ofNat 123

/-- The closing-brace character, kept as a named constant. -/
def rbrace : Char := Char.ofNat 125

/-- The single-quote character, kept as a named constant. -/
def squote : String := String.mk [Char.ofNat 39]

mutual

/-- Python `repr` of a value (the form used when a value is interpolated
inside a container's textual form). -/
def pyRepr : PyVal → String
  | .none => "None"
  | .bool true => "True"
  | .bool false => "False"
  | .int n => toString n
  | .float q => if q.den = 1 then toString q.num ++ ".0"
                else toString q.num ++ "/" ++ toString q.den
  | .str s => squote ++ s ++ squote
  | .list elts => "[" ++ pyReprSep elts ++ "]"
  | .dict entries => String.mk [lbrace] ++ pyReprPairs entries ++ String.mk [rbrace]

/-- Comma-separated `repr`s of list elements. -/
def pyReprSep : List PyVal → String
  | [] => ""
  | [v] => pyRepr v
  | v :: rest => pyRepr v ++ ", " ++ pyReprSep rest

/-- Comma-separated `repr`s of dict entries. -/
def pyReprPairs : List (String × PyVal) → String
  | [] => ""
  | [kv] => squote ++ kv.1 ++ squote ++ ": " ++ pyRepr kv.2
  | kv :: rest => squote ++ kv.1 ++ squote ++ ": " ++ pyRepr kv.2 ++ ", " ++ pyReprPairs rest

end

/-- Python `str(x)`, as used by f-string interpolation and `st.write`. -/
def pyStr : PyVal → String
  | .str s => s
  | v => pyRepr v

/-- `x.get(key, default)`: defined on dicts, `AttributeError` on every other
value.  The parser never produces duplicate keys, so first-match lookup
agrees with Python dict lookup. -/
def pyGet (v : PyVal) (key : String) (dflt : PyVal) : Except PyErr PyVal :=
  match v with
  | .dict entries => Except.ok ((entries.lookup key).getD dflt)
  | _ => Except.error PyErr.attributeError

/-- `x.items()`: defined on dicts only. -/
def pyItems (v : PyVal) : Except PyErr (List (String × PyVal)) :=
  match v with
  | .dict entries => Except.ok entries
  | _ => Except.error PyErr.attributeError

/-- Iterating a Python value (`for ... in x`): lists yield elements, strings
yield one-character strings, dicts yield keys; other values raise
`TypeError`. -/
def pyIterList (v : PyVal) : Except PyErr (List PyVal) :=
  match v with
  | .list elts => Except.ok elts
  | .str s => Except.ok (s.data.map (fun c => PyVal.str (String.mk [c])))
  | .dict entries => Except.ok (entries.map (fun kv => PyVal.str kv.1))
  | _ => Except.error PyErr.typeError

/-- Drop the trailing characters of a list that satisfy `p`. -/
def dropEndWhile (p : Char → Bool) (cs : List Char) : List Char :=
  (cs.reverse.dropWhile p).reverse

/-- Strip every character of `strippers` from both ends of a string
(Python `str.strip(chars)`). -/
def stripSet (strippers : List Char) (s : String) : String :=
  String.mk (dropEndWhile (fun c => strippers.contains c)
    (s.data.dropWhile (fun c => strippers.contains c)))

/-- `x.strip(chars)`: a `str` method, `AttributeError` on non-strings. -/
def pyStripChars (strippers : List Char) (v : PyVal) : Except PyErr String :=
  match v with
  | .str s => Except.ok (stripSet strippers s)
  | _ => Except.error PyErr.attributeError

/-- Whitespace characters recognised by Python `str.strip()`. -/
def pyIsSpace (c : Char) : Bool :=
  c = ' ' || c = '\t' || c = '\n' || c = '\x0d' || c = '\x0b' || c = '\x0c'

/-- Python `str.strip()` with no argument: trim whitespace from both ends. -/
def stripWs (s : String) : String :=
  String.mk (dropEndWhile pyIsSpace (s.data.dropWhile pyIsSpace))

/-- Every element of the list must be a `str`, else `', '.join` raises
`TypeError`. -/
def asStrList : List PyVal → Except PyErr (List String)
  | [] => Except.ok []
  | PyVal.str s :: rest => do
      let tail ← asStrList rest
      Except.ok (s :: tail)
  | _ :: _ => Except.error PyErr.typeError

/-- `sep.join(x)`: joins an iterable of strings; `TypeError` when the
iterable contains a non-string or the value is not iterable. -/
def pyJoin (sep : String) (v : PyVal) : Except PyErr String :=
  match v with
  | .list elts => do
      let ss ← asStrList elts
      Except.ok (String.intercalate sep ss)
  | .str s => Except.ok (String.intercalate sep (s.data.map (fun c => String.mk [c])))
  | .dict entries => Except.ok (String.intercalate sep (entries.map (fun kv => kv.1)))
  | _ => Except.error PyErr.typeError

/-! ### Fence-span extraction (`get_disease_info`, lines 33-36) -/

/-- All indices at which `pat` occurs as a substring of `s`, in increasing
order. -/
def occIdx (pat s : List Char) : List Nat :=
  (List.range (s.length + 1)).filter (fun i => pat.isPrefixOf (s.drop i))

/-- First occurrence index of `pat` in `s` (Python `str.find`, as an
`Option`). -/
def findSub (pat s : List Char) : Option Nat := (occIdx pat s).head?

/-- Last occurrence index of `pat` in `s` (Python `str.rfind`, as an
`Option`). -/
def rfindSub (pat s : List Char) : Option Nat := (occIdx pat s).getLast?

/-- Python `str.find`: the first occurrence index, or `-1`. -/
def pyFind (s pat : List Char) : Int :=
  match findSub pat s with
  | some i => (i : Int)
  | _ => -1

/-- Python `str.rfind`: the last occurrence index, or `-1`. -/
def pyRfind (s pat : List Char) : Int :=
  match rfindSub pat s with
  | some i => (i : Int)
  | _ => -1

/-- The triple-backtick fence marker. -/
def fence : List Char := "```".data

/-- Python slice `s[a:b]` for non-negative bounds. -/
def pySlice (cs : List Char) (a b : Nat) : List Char := (cs.take b).drop a

/-- Lines 34-36 of the source: the candidate JSON payload extracted from the
raw service response.

`json_start = content.find("```") + 3`, `json_end = content.rfind("```")`,
and the slice `content[json_start:json_end].strip()` is used when
`json_start > 2 and json_end > 0`; otherwise the whole response is used. -/
def json_text (content : String) : String :=
  let cs := content.data
  let json_start : Int := pyFind cs fence + 3
  let json_end : Int := pyRfind cs fence
  if json_start > 2 ∧ json_end > 0 then
    stripWs (String.mk (pySlice cs json_start.toNat json_end.toNat))
  else content

/-! ### `json.loads` (strict JSON parsing) -/

/-- JSON whitespace characters. -/
def isJsonWs (c : Char) : Bool := c = ' ' || c = '\t' || c = '\n' || c = '\x0d'

/-- Value of a hexadecimal digit. -/
def hexDigitVal (c : Char) : Option Nat :=
  if '0' ≤ c ∧ c ≤ '9' then some (c.toNat - 48)
  else if 'a' ≤ c ∧ c ≤ 'f' then some (c.toNat - 87)
  else if 'A' ≤ c ∧ c ≤ 'F' then some (c.toNat - 55)
  else Option.none

/-- Parse the body of a JSON string literal, after the opening quote:
returns the decoded characters and the input following the closing quote. -/
def parseJStr : List Char → Option (List Char × List Char)
  | [] => Option.none
  | c :: rest =>
    if c = '"' then some ([], rest)
    else if c = '\\' then
      match rest with
      | [] => Option.none
      | e :: rest2 =>
        if e = '"' ∨ e = '\\' ∨ e = '/' then
          (parseJStr rest2).map (fun p => (e :: p.1, p.2))
        else if e = 'b' then (parseJStr rest2).map (fun p => ('\x08' :: p.1, p.2))
        else if e = 'f' then (parseJStr rest2).map (fun p => ('\x0c' :: p.1, p.2))
        else if e = 'n' then (parseJStr rest2).map (fun p => ('\n' :: p.1, p.2))
        else if e = 'r' then (parseJStr rest2).map (fun p => ('\x0d' :: p.1, p.2))
        else if e = 't' then (parseJStr rest2).map (fun p => ('\t' :: p.1, p.2))
        else if e = 'u' then
          match rest2 with
          | h1 :: h2 :: h3 :: h4 :: rest3 =>
            match hexDigitVal h1, hexDigitVal h2, hexDigitVal h3, hexDigitVal h4 with
            | some a, some b, some c2, some d =>
              (parseJStr rest3).map
                (fun p => (Char.ofNat (a * 4096 + b * 256 + c2 * 16 + d) :: p.1, p.2))
            | _, _, _, _ => Option.none
          | _ => Option.none
        else Option.none
    else if c.toNat < 32 then Option.none
    else (parseJStr rest).map (fun p => (c :: p.1, p.2))

/-- Numeric value of a digit string. -/
def digitsToNat (ds : List Char) : Nat :=
  ds.foldl (fun a c => a * 10 + (c.toNat - 48)) 0

/-- Optional JSON exponent suffix; the result is always a `float`. -/
def parseJExpOpt (m : ℚ) (isFloat : Bool) (cs : List Char) : Option (PyVal × List Char) :=
  match cs with
  | c :: rest =>
    if c = 'e' ∨ c = 'E' then
      let sr : Int × List Char :=
        match rest with
        | '+' :: r => (1, r)
        | '-' :: r => (-1, r)
        | _ => (1, rest)
      let ds := sr.2.takeWhile Char.isDigit
      let rest2 := sr.2.dropWhile Char.isDigit
      if ds.isEmpty then Option.none
      else some (PyVal.float (m * (10 : ℚ) ^ (sr.1 * (digitsToNat ds : Int))), rest2)
    else if isFloat then some (PyVal.float m, cs) else some (PyVal.int m.num, cs)
  | [] => if isFloat then some (PyVal.float m, []) else some (PyVal.int m.num, [])

/-- Parse a JSON number per the strict grammar `json.loads` accepts:
optional minus, integer part without leading zeros, optional fraction,
optional exponent.  Numbers with a fraction or exponent become `float`,
plain integers become `int`. -/
def parseJNum (cs : List Char) : Option (PyVal × List Char) :=
  let nr : Bool × List Char :=
    match cs with
    | '-' :: rest => (true, rest)
    | _ => (false, cs)
  let ip := nr.2.takeWhile Char.isDigit
  let cs2 := nr.2.dropWhile Char.isDigit
  if ip.isEmpty then Option.none
  else if 1 < ip.length ∧ ip.head? = some '0' then Option.none
  else
    let ipq : ℚ := (digitsToNat ip : ℚ)
    match cs2 with
    | '.' :: cs3 =>
      let fp := cs3.takeWhile Char.isDigit
      let cs4 := cs3.dropWhile Char.isDigit
      if fp.isEmpty then Option.none
      else
        let mant : ℚ := ipq + (digitsToNat fp : ℚ) / (10 : ℚ) ^ fp.length
        parseJExpOpt (if nr.1 then -mant else mant) true cs4
    | _ => parseJExpOpt (if nr.1 then -ipq else ipq) false cs2

/-- Insert a key into a Python dict: overwriting keeps the original
position, a new key is appended (Python dict semantics). -/
def dinsert (entries : List (String × PyVal)) (k : String) (v : PyVal) :
    List (String × PyVal) :=
  if entries.any (fun kv => kv.1 = k) then
    entries.map (fun kv => if kv.1 = k then (k, v) else kv)
  else entries ++ [(k, v)]

/-- Build a Python dict from parsed key/value pairs in source order. -/
def dictOfPairs (pairs : List (String × PyVal)) : PyVal :=
  PyVal.dict (pairs.foldl (fun acc kv => dinsert acc kv.1 kv.2) [])

mutual

/-- Parse one JSON value (recursive descent, fuel-bounded; `json_loads`
supplies fuel ample for any input of the given length). -/
def parseJVal : Nat → List Char → Option (PyVal × List Char)
  | 0, _ => Option.none
  | fuel + 1, cs =>
    match cs.dropWhile isJsonWs with
    | [] => Option.none
    | c :: rest =>
      if c = lbrace then
        match rest.dropWhile isJsonWs with
        | d :: rest2 =>
          if d = rbrace then some (PyVal.dict [], rest2)
          else
            match parseJObjItems fuel rest with
            | some (items, rest3) => some (dictOfPairs items, rest3)
            | _ => Option.none
        | [] => Option.none
      else if c = '[' then
        match rest.dropWhile isJsonWs with
        | d :: rest2 =>
          if d = ']' then some (PyVal.list [], rest2)
          else
            match parseJArrItems fuel rest with
            | some (elts, rest3) => some (PyVal.list elts, rest3)
            | _ => Option.none
        | [] => Option.none
      else if c = '"' then
        match parseJStr rest with
        | some (scs, rest2) => some (PyVal.str (String.mk scs), rest2)
        | _ => Option.none
      else if c = 't' then
        if rest.take 3 = ['r', 'u', 'e'] then some (PyVal.bool true, rest.drop 3)
        else Option.none
      else if c = 'f' then
        if rest.take 4 = ['a', 'l', 's', 'e'] then some (PyVal.bool false, rest.drop 4)
        else Option.none
      else if c = 'n' then
        if rest.take 3 = ['u', 'l', 'l'] then some (PyVal.none, rest.drop 3)
        else Option.none
      else if c = '-' ∨ c.isDigit then parseJNum (c :: rest)
      else Option.none

/-- Parse the comma-separated entries of a JSON object, up to and including
the closing brace. -/
def parseJObjItems : Nat → List Char → Option (List (String × PyVal) × List Char)
  | 0, _ => Option.none
  | fuel + 1, cs =>
    match cs.dropWhile isJsonWs with
    | '"' :: rest =>
      match parseJStr rest with
      | some (kcs, rest2) =>
        match rest2.dropWhile isJsonWs with
        | ':' :: rest3 =>
          match parseJVal fuel rest3 with
          | some (v, rest4) =>
            match rest4.dropWhile isJsonWs with
            | ',' :: rest5 =>
              match parseJObjItems fuel rest5 with
              | some (items, rest6) => some ((String.mk kcs, v) :: items, rest6)
              | _ => Option.none
            | d :: rest5 =>
              if d = rbrace then some ([(String.mk kcs, v)], rest5) else Option.none
            | [] => Option.none
          | _ => Option.none
        | _ => Option.none
      | _ => Option.none
    | _ => Option.none

/-- Parse the comma-separated elements of a JSON array, up to and including
the closing bracket. -/
def parseJArrItems : Nat → List Char → Option (List PyVal × List Char)
  | 0, _ => Option.none
  | fuel + 1, cs =>
    match parseJVal fuel cs with
    | some (v, rest) =>
      match rest.dropWhile isJsonWs with
      | ',' :: rest2 =>
        match parseJArrItems fuel rest2 with
        | some (elts, rest3) => some (v :: elts, rest3)
        | _ => Option.none
      | d :: rest2 => if d = ']' then some ([v], rest2) else Option.none
      | [] => Option.none
    | _ => Option.none

end

/-- `json.loads`: strict JSON parse of the whole string; `Option.none`
models `json.JSONDecodeError`. -/
def json_loads (s : String) : Option PyVal :=
  match parseJVal (8 * (s.length + 2)) s.data with
  | some (v, rest) => if (rest.dropWhile isJsonWs).isEmpty then some v else Option.none
  | _ => Option.none

/-! ### Python `float(str)` -/

/-- Optional exponent suffix of a Python float literal; must consume the
whole remaining input. -/
def pyFloatExp (m : ℚ) (cs : List Char) : Option ℚ :=
  match cs with
  | [] => some m
  | c :: rest =>
    if c = 'e' ∨ c = 'E' then
      let sr : Int × List Char :=
        match rest with
        | '+' :: r => (1, r)
        | '-' :: r => (-1, r)
        | _ => (1, rest)
      let ds := sr.2.takeWhile Char.isDigit
      let rest2 := sr.2.dropWhile Char.isDigit
      if ds.isEmpty ∨ ¬ rest2.isEmpty then Option.none
      else some (m * (10 : ℚ) ^ (sr.1 * (digitsToNat ds : Int)))
    else Option.none

/-- Python `float(str)` on decimal literals: optional surrounding
whitespace and sign, digits with optional fractional part and optional
exponent (the special forms `inf`/`nan` and digit underscores are not
modelled). -/
def pyFloatOfString (s : String) : Option ℚ :=
  let cs := dropEndWhile pyIsSpace (s.data.dropWhile pyIsSpace)
  let nr : Bool × List Char :=
    match cs with
    | '+' :: rest => (false, rest)
    | '-' :: rest => (true, rest)
    | _ => (false, cs)
  let ip := nr.2.takeWhile Char.isDigit
  let cs2 := nr.2.dropWhile Char.isDigit
  let core : Option (ℚ × List Char) :=
    match cs2 with
    | '.' :: cs3 =>
      let fp := cs3.takeWhile Char.isDigit
      let cs4 := cs3.dropWhile Char.isDigit
      if ip.isEmpty ∧ fp.isEmpty then Option.none
      else some ((digitsToNat ip : ℚ) + (digitsToNat fp : ℚ) / (10 : ℚ) ^ fp.length, cs4)
    | _ => if ip.isEmpty then Option.none else some ((digitsToNat ip : ℚ), cs2)
  match core with
  | some (m, rest) =>
    match pyFloatExp m rest with
    | some q => some (if nr.1 then -q else q)
    | _ => Option.none
  | _ => Option.none

/-! ### The extractor (`get_disease_info`) -/

/-- Streamlit output calls, in the order the source makes them. -/
inductive StEvent where
  | write (text : String)
  | subheader (text : String)
  | barChart (recoveryRate mortalityRate : ℚ)
  | error (text : String)
  | downloadButton (label fileName : String)
deriving DecidableEq, Repr

/-- Text-bearing FPDF calls made by `generate_pdf`, in source order (font
and layout calls carry no record content and are not modelled). -/
inductive PdfEvent where
  | cell (text : String)
  | multiCell (text : String)
deriving DecidableEq, Repr

/-- `get_disease_info` (lines 11-42).  The network round trip to the
text-generation service is external to this repository, so the function is
modelled on the raw response text it receives: fence-span extraction
(`json_text`) followed by strict JSON parsing; on `JSONDecodeError` it
shows `st.error` and returns `None`. -/
def get_disease_info (content : String) : Option PyVal × List StEvent :=
  match json_loads (json_text content) with
  | some v => (some v, [])
  | _ => (Option.none, [StEvent.error "Error decoding JSON. Please check API response."])

/-! ### The presenter (`generate_pdf` and `display_disease_info`) -/

/-- FPDF `multi_cell`/`cell` apply string methods to a text argument that
is passed through raw (not via an f-string), so a non-string raises. -/
def pdfTextArg (v : PyVal) : Except PyErr String :=
  match v with
  | .str s => Except.ok s
  | _ => Except.error PyErr.attributeError

/-- The recovery-options loop of `generate_pdf` (lines 72-75): one `cell`
with the dashed label and one `multi_cell` with the description, per
mapping entry in stored order. -/
def pdf_ro_loop : List (String × PyVal) → Except PyErr (List PdfEvent)
  | [] => Except.ok []
  | kv :: rest => do
      let txt ← pdfTextArg kv.2
      let tail ← pdf_ro_loop rest
      Except.ok (PdfEvent.cell ("- " ++ kv.1) :: PdfEvent.multiCell txt :: tail)

/-- One iteration of the medication loop of `generate_pdf` (lines 81-85). -/
def pdf_med_entry (idx : Nat) (med : PyVal) : Except PyErr (List PdfEvent) := do
  let nm ← pyGet med "name" (PyVal.str "Unknown")
  let ds ← pyGet med "dosage" (PyVal.str "N/A")
  let se ← pyGet med "side_effects" (PyVal.list [])
  let sj ← pyJoin ", " se
  Except.ok [PdfEvent.cell (toString idx ++ ". " ++ pyStr nm),
    PdfEvent.multiCell ("Dosage: " ++ pyStr ds ++ "\nSide Effects: " ++ sj)]

/-- The medication loop of `generate_pdf`: `enumerate(..., start=1)`
renders entries 1-indexed in input order. -/
def pdf_med_loop (idx : Nat) : List PyVal → Except PyErr (List PdfEvent)
  | [] => Except.ok []
  | med :: rest => do
      let evs ← pdf_med_entry idx med
      let tail ← pdf_med_loop (idx + 1) rest
      Except.ok (evs ++ tail)

/-- `generate_pdf` (lines 45-87): the static-document renderer, modelled as
the sequence of text-bearing calls it makes.  `pdf.output(...)` serialises
exactly this content, so the event list stands for the produced bytes. -/
def generate_pdf (info : PyVal) : Except PyErr (List PdfEvent) := do
  let nm ← pyGet info "name" (PyVal.str "Disease Info")
  let stats ← pyGet info "statistics" (PyVal.dict [])
  let tc ← pyGet stats "total_cases" (PyVal.str "N/A")
  let rr ← pyGet stats "recovery_rate" (PyVal.str "N/A")
  let mr ← pyGet stats "mortality_rate" (PyVal.str "N/A")
  let ro ← pyGet info "recovery_options" (PyVal.dict [])
  let roPairs ← pyItems ro
  let roEvs ← pdf_ro_loop roPairs
  let meds ← pyGet info "medication" (PyVal.list [])
  let medList ← pyIterList meds
  let medEvs ← pdf_med_loop 1 medList
  Except.ok ([PdfEvent.cell (pyStr nm), PdfEvent.cell "Statistics",
    PdfEvent.multiCell ("Total Cases: " ++ pyStr tc
      ++ "\nRecovery Rate: " ++ pyStr rr
      ++ "\nMortality Rate: " ++ pyStr mr),
    PdfEvent.cell "Recovery Options"] ++ roEvs
    ++ [PdfEvent.cell "Medication"] ++ medEvs)

/-- The `try`/`except ValueError` statistics block of
`display_disease_info` (lines 100-108): fetch the two rate strings
(defaulting to `"0%"`), strip `%` from both ends, convert with `float`;
on success draw the two-bar chart, on `ValueError` show the notice.
Other exceptions (for example `AttributeError` from a non-string rate)
propagate uncaught. -/
def st_stats_chart (stats : PyVal) : Except PyErr (List StEvent) :=
  let inner : Except PyErr (ℚ × ℚ) := do
    let rrv ← pyGet stats "recovery_rate" (PyVal.str "0%")
    let rrs ← pyStripChars ['%'] rrv
    let recovery_rate ← match pyFloatOfString rrs with
      | some q => Except.ok q
      | _ => Except.error PyErr.valueError
    let mrv ← pyGet stats "mortality_rate" (PyVal.str "0%")
    let mrs ← pyStripChars ['%'] mrv
    let mortality_rate ← match pyFloatOfString mrs with
      | some q => Except.ok q
      | _ => Except.error PyErr.valueError
    Except.ok (recovery_rate, mortality_rate)
  match inner with
  | Except.ok (r, m) => Except.ok [StEvent.barChart r m]
  | Except.error PyErr.valueError =>
      Except.ok [StEvent.error "Invalid percentage values in statistics."]
  | Except.error e => Except.error e

/-- The recovery-options loop of `display_disease_info` (lines 111-113):
`st.subheader`/`st.write` accept any value, so this loop cannot raise. -/
def st_ro_events (pairs : List (String × PyVal)) : List StEvent :=
  (pairs.map (fun kv => [StEvent.subheader kv.1, StEvent.write (pyStr kv.2)])).flatten

/-- One iteration of the medication loop of `display_disease_info`
(lines 116-119). -/
def st_med_entry (idx : Nat) (med : PyVal) : Except PyErr (List StEvent) := do
  let nm ← pyGet med "name" (PyVal.str "Unknown")
  let ds ← pyGet med "dosage" (PyVal.str "N/A")
  let se ← pyGet med "side_effects" (PyVal.list [])
  let sj ← pyJoin ", " se
  Except.ok [StEvent.subheader (toString idx ++ ". " ++ pyStr nm),
    StEvent.write ("**Dosage:** " ++ pyStr ds),
    StEvent.write ("**Side Effects:** " ++ sj)]

/-- The medication loop of `display_disease_info`:
`enumerate(..., start=1)` renders entries 1-indexed in input order. -/
def st_med_loop (idx : Nat) : List PyVal → Except PyErr (List StEvent)
  | [] => Except.ok []
  | med :: rest => do
      let evs ← st_med_entry idx med
      let tail ← st_med_loop (idx + 1) rest
      Except.ok (evs ++ tail)

/-- `display_disease_info` (lines 90-130): returns immediately on a falsy
record (`None` or an empty dict), otherwise emits the title, the
statistics chart block, the recovery-options and medication sections,
generates the PDF and offers it for download. -/
def display_disease_info (info : PyVal) : Except PyErr (List StEvent) :=
  if pyFalsy info then Except.ok [] else do
    let nm ← pyGet info "name" (PyVal.str "Unknown Disease")
    let stats ← pyGet info "statistics" (PyVal.dict [])
    let statEvs ← st_stats_chart stats
    let ro ← pyGet info "recovery_options" (PyVal.dict [])
    let roPairs ← pyItems ro
    let meds ← pyGet info "medication" (PyVal.list [])
    let medList ← pyIterList meds
    let medEvs ← st_med_loop 1 medList
    let _pdf ← generate_pdf info
    let fn ← pyGet info "name" (PyVal.str "disease_info")
    Except.ok ([StEvent.write ("## Statistics for " ++ pyStr nm)]
      ++ statEvs
      ++ [StEvent.write "## Recovery Options"]
      ++ st_ro_events roPairs
      ++ [StEvent.write "## Medication"]
      ++ medEvs
      ++ [StEvent.downloadButton "Download PDF" (pyStr fn ++ ".pdf")])

/-! ### Shape predicates and shared content projections -/

/-- Whether a value is a Python dict (the shape of a DiseaseRecord). -/
def isDictB : PyVal → Bool
  | .dict _ => true
  | _ => false

/-- Whether a value is a string. -/
def isStrVal : PyVal → Bool
  | .str _ => true
  | _ => false

/-- Whether a value is a list of strings. -/
def isStrListVal : PyVal → Bool
  | .list elts => elts.all isStrVal
  | _ => false

/-- The predicate `p` holds of the value stored at `k`, when present
(an absent key is unconstrained). -/
def wtLookup (entries : List (String × PyVal)) (k : String) (p : PyVal → Bool) : Bool :=
  match entries.lookup k with
  | some v => p v
  | _ => true

/-- A statistics sub-record of the documented shape: a dict whose rate
fields, when present, are strings. -/
def wtStats : PyVal → Bool
  | .dict entries =>
      wtLookup entries "recovery_rate" isStrVal && wtLookup entries "mortality_rate" isStrVal
  | _ => false

/-- Recovery options of the documented shape: a mapping with string
descriptions. -/
def wtOptions : PyVal → Bool
  | .dict entries => entries.all (fun kv => isStrVal kv.2)
  | _ => false

/-- A medication entry of the documented shape: a dict whose
`side_effects` field, when present, is a list of strings. -/
def wtMed : PyVal → Bool
  | .dict entries => wtLookup entries "side_effects" isStrListVal
  | _ => false

/-- A medication sequence of the documented shape. -/
def wtMeds : PyVal → Bool
  | .list meds => meds.all wtMed
  | _ => false

/-- A structurally present record in which every sub-field, when present,
has the documented type; any field may be missing. -/
def wellTypedRecord : PyVal → Bool
  | .dict entries =>
      wtLookup entries "statistics" wtStats
        && wtLookup entries "recovery_options" wtOptions
        && wtLookup entries "medication" wtMeds
  | _ => false

/-- Whether a fallible computation succeeded. -/
def excIsOk {α : Type} : Except PyErr α → Bool
  | .ok _ => true
  | .error _ => false

/-- The record content both medication loops render for one entry. -/
structure MedContent where
  name : String
  dosage : String
  sideEffects : String
deriving DecidableEq, Repr

/-- The field accesses the two medication loops share: name (default
`"Unknown"`), dosage (default `"N/A"`), comma-joined side effects
(default: empty list, joining to the empty string). -/
def med_content (med : PyVal) : Except PyErr MedContent := do
  let nm ← pyGet med "name" (PyVal.str "Unknown")
  let ds ← pyGet med "dosage" (PyVal.str "N/A")
  let se ← pyGet med "side_effects" (PyVal.list [])
  let sj ← pyJoin ", " se
  Except.ok ⟨pyStr nm, pyStr ds, sj⟩

/-- `med_content` over a whole medication list. -/
def med_contents : List PyVal → Except PyErr (List MedContent)
  | [] => Except.ok []
  | med :: rest => do
      let c ← med_content med
      let cs ← med_contents rest
      Except.ok (c :: cs)

/-- Written from the spec's words: the interactive medication section —
entries numbered consecutively from `start`, each `"<idx>. <name>"` with a
dosage line and a comma-joined side-effects line. -/
def specStMedSection (start : Nat) (cs : List MedContent) : List StEvent :=
  ((cs.enumFrom start).map (fun ic =>
    [StEvent.subheader (toString ic.1 ++ ". " ++ ic.2.name),
     StEvent.write ("**Dosage:** " ++ ic.2.dosage),
     StEvent.write ("**Side Effects:** " ++ ic.2.sideEffects)])).flatten

/-- Written from the spec's words: the document medication section — the
same 1-indexed numbering and dosage/side-effects content as the
interactive view. -/
def specPdfMedSection (start : Nat) (cs : List MedContent) : List PdfEvent :=
  ((cs.enumFrom start).map (fun ic =>
    [PdfEvent.cell (toString ic.1 ++ ". " ++ ic.2.name),
     PdfEvent.multiCell ("Dosage: " ++ ic.2.dosage ++ "\nSide Effects: " ++ ic.2.sideEffects)])).flatten

/-! ### Basic evaluations of the embedded operations -/

example : json_text "a ```x``` b" = "x" := by decide
example : json_text "no fences here" = "no fences here" := by decide
example : json_text "```" = "```" := by decide
example : json_text "ab```" = "" := by decide
example : json_loads "\x7b\x7d" = some (PyVal.dict []) := by rfl
example : json_loads "[1, 2]" = some (PyVal.list [PyVal.int 1, PyVal.int 2]) := by rfl
example : json_loads "not json" = Option.none := by rfl
example : json_loads "" = Option.none := by rfl
example : json_loads " \x7b\"name\": \"Flu\", \"x\": [17, true, null]\x7d " =
    some (PyVal.dict [("name", PyVal.str "Flu"),
      ("x", PyVal.list [PyVal.int 17, PyVal.bool true, PyVal.none])]) := by rfl
example : (json_loads "1.5e2").isSome = true := by rfl
example : pyFloatOfString "70" = some 70 := by rfl
example : pyFloatOfString "0" = some 0 := by rfl
example : pyFloatOfString "150" = some 150 := by rfl
example : pyFloatOfString "N/A" = Option.none := by rfl
example : (pyFloatOfString "-2.5").isSome = true := by rfl
example : pyFloatOfString "-3" = some (-3) := by rfl
example : pyFloatOfString "" = Option.none := by rfl
example : display_disease_info PyVal.none = Except.ok [] := by rfl
example : display_disease_info (PyVal.dict []) = Except.ok [] := by rfl

/-! ### Claim C1: fence-span extraction -/

/-- C1 counterexample: the response `"```"` contains triple-backtick
fencing (first occurrence at index 0, which is also the last), so the
claim's candidate payload is the trimmed text strictly between the end of
the first marker (index 3) and the start of the last marker (index 0) —
the empty string.  The code instead fails its fence guard
(`json_end > 0` is false) and uses the whole response, fence included. -/
theorem c1_single_fence_counterexample :
    findSub fence "```".data = some 0
    ∧ stripWs (String.mk (pySlice "```".data (0 + 3) 0)) = ""
    ∧ json_text "```" = "```"
    ∧ ("```" : String) ≠ "" :=
  ⟨rfl, rfl, rfl, by decide⟩

/-- C1 (amended): whenever the last triple-backtick occurrence starts
after index 0, the candidate payload is exactly the whitespace-trimmed
text strictly between the end of the first marker and the start of the
last marker; when the response contains no marker at all, the entire
response is the candidate.  (The remaining case — the marker occurring
only at index 0 — fails the fence guard and uses the entire response.) -/
theorem c1_fence_span_amended (content : String) :
    (∀ i j, findSub fence content.data = some i → rfindSub fence content.data = some j →
      0 < j → json_text content = stripWs (String.mk (pySlice content.data (i + 3) j)))
    ∧ (findSub fence content.data = Option.none → json_text content = content) := by
  constructor
  · intro i j hf hr hj
    have hpf : pyFind content.data fence = (i : Int) := by simp [pyFind, hf]
    have hpr : pyRfind content.data fence = (j : Int) := by simp [pyRfind, hr]
    simp only [json_text, hpf, hpr]
    rw [if_pos ⟨by omega, by omega⟩]
    have h1 : ((i : Int) + 3).toNat = i + 3 := by omega
    have h2 : ((j : Int)).toNat = j := by omega
    rw [h1, h2]
  · intro hf
    have hpf : pyFind content.data fence = -1 := by simp [pyFind, hf]
    simp only [json_text, hpf]
    rw [if_neg]
    intro hc
    omega

/-- Witness for C1 (amended) on a fenced response. -/
theorem c1_fence_span_amended_witness : json_text "a ```x``` b" = "x" := by
  have h := (c1_fence_span_amended "a ```x``` b").1 2 6 (by rfl) (by rfl) (by decide)
  rw [h]; rfl

/-! ### Claim C2: malformed payloads -/

/-- C2: whenever the candidate payload is not valid JSON, `get_disease_info`
shows the decoding error and returns `None` (no exception escapes, by the
`try`/`except JSONDecodeError`), and the presenter renders nothing for the
absent record. -/
theorem c2_malformed_payload (content : String)
    (h : json_loads (json_text content) = Option.none) :
    get_disease_info content =
      (Option.none, [StEvent.error "Error decoding JSON. Please check API response."])
    ∧ display_disease_info PyVal.none = Except.ok [] := by
  refine ⟨?_, rfl⟩
  simp only [get_disease_info, h]

/-- Witness for C2 on a plain-prose response with no JSON content. -/
theorem c2_malformed_payload_witness :
    get_disease_info "The flu is a common illness." =
      (Option.none, [StEvent.error "Error decoding JSON. Please check API response."])
    ∧ display_disease_info PyVal.none = Except.ok [] :=
  c2_malformed_payload "The flu is a common illness." (by rfl)

/-! ### Claim C6: the value returned on parse success -/

/-- C6 counterexample: the fenced payload `[1, 2]` parses as valid JSON,
and `get_disease_info` returns the parsed list itself — an uncoerced
non-record value, not a value in the DiseaseRecord shape. -/
theorem c6_nonrecord_counterexample :
    get_disease_info "```[1, 2]```" = (some (PyVal.list [PyVal.int 1, PyVal.int 2]), [])
    ∧ isDictB (PyVal.list [PyVal.int 1, PyVal.int 2]) = false :=
  ⟨rfl, rfl⟩

/-- C6 (amended): on parse success `get_disease_info` returns the parsed
JSON value unchanged — no coercion into the record shape happens at the
extraction boundary (defaulting happens field-by-field inside the
renderers); parse failure remains a matter of JSON syntax only. -/
theorem c6_passthrough_amended (content : String) (v : PyVal)
    (h : json_loads (json_text content) = some v) :
    get_disease_info content = (some v, []) := by
  simp only [get_disease_info, h]

/-- Witness for C6 (amended): a fenced JSON string payload is returned
as-is. -/
theorem c6_passthrough_amended_witness :
    get_disease_info "``` \"ok\" ```" = (some (PyVal.str "ok"), []) :=
  c6_passthrough_amended "``` \"ok\" ```" (PyVal.str "ok") (by rfl)

/-! ### Claim C9: the empty record -/

/-- C9: extraction succeeds on the fenced payload `{}`, and the presenter
renders nothing at all for the resulting empty record — the `if not info`
entry check cannot distinguish the empty dict from `None`. -/
theorem c9_empty_record_renders_nothing :
    get_disease_info "```\x7b\x7d```" = (some (PyVal.dict []), [])
    ∧ display_disease_info (PyVal.dict []) = Except.ok []
    ∧ display_disease_info (PyVal.dict []) = display_disease_info PyVal.none :=
  ⟨rfl, rfl, rfl⟩

/-! ### Claim C10: responses with exactly one fence marker -/

/-- C10: when the triple-backtick marker occurs exactly once (first and
last occurrence coincide at index `i`): for `i > 0` the candidate payload
is the empty string, which fails JSON parsing, so extraction reports the
decoding error and returns `None`; for `i = 0` the fence guard fails and
the entire response, fence characters included, is the candidate. -/
theorem c10_single_fence_behavior (content : String) (i : Nat)
    (hf : findSub fence content.data = some i) (hr : rfindSub fence content.data = some i) :
    (0 < i → json_text content = ""
      ∧ get_disease_info content =
          (Option.none, [StEvent.error "Error decoding JSON. Please check API response."]))
    ∧ (i = 0 → json_text content = content) := by
  have hpf : pyFind content.data fence = (i : Int) := by simp [pyFind, hf]
  have hpr : pyRfind content.data fence = (i : Int) := by simp [pyRfind, hr]
  constructor
  · intro hi
    have hjt : json_text content = "" := by
      simp only [json_text, hpf, hpr]
      rw [if_pos ⟨by omega, by omega⟩]
      have h1 : ((i : Int) + 3).toNat = i + 3 := by omega
      have h2 : ((i : Int)).toNat = i := by omega
      rw [h1, h2]
      have hnil : pySlice content.data (i + 3) i = [] := by
        apply List.drop_eq_nil_of_le
        have := List.length_take_le i content.data
        omega
      rw [hnil]
      rfl
    refine ⟨hjt, ?_⟩
    simp only [get_disease_info, hjt]
    rfl
  · intro hi
    subst hi
    simp only [json_text, hpf, hpr]
    rw [if_neg]
    intro hc
    omega

/-- Witness for C10: `"ab```"` has its only marker at index 2. -/
theorem c10_single_fence_behavior_witness :
    json_text "ab```" = ""
    ∧ get_disease_info "ab```" =
        (Option.none, [StEvent.error "Error decoding JSON. Please check API response."]) :=
  (c10_single_fence_behavior "ab```" 2 (by rfl) (by rfl)).1 (by decide)

/-! ### Claims C3, C4, C5, C7: concrete renderer behaviors -/

/-- C3 counterexample: the structurally present record
`{"statistics": 5}` has a sub-field of unexpected type, and both renderers
raise `AttributeError` (the integer has no `.get`) instead of completing
with placeholders. -/
theorem c3_untyped_subfield_counterexample :
    isDictB (PyVal.dict [("statistics", PyVal.int 5)]) = true
    ∧ display_disease_info (PyVal.dict [("statistics", PyVal.int 5)]) =
        Except.error PyErr.attributeError
    ∧ generate_pdf (PyVal.dict [("statistics", PyVal.int 5)]) =
        Except.error PyErr.attributeError :=
  ⟨rfl, rfl, rfl⟩

/-- C4 counterexample: for the record `{"name": "Flu"}` both rate fields
are absent at render time, yet the chart is drawn (with the defaulted
values `0.0` and `0.0`) and no "invalid percentage" notice is shown —
contradicting the claim that an absent rate skips the chart. -/
theorem c4_absent_rate_counterexample :
    display_disease_info (PyVal.dict [("name", PyVal.str "Flu")]) =
      Except.ok [StEvent.write "## Statistics for Flu", StEvent.barChart 0 0,
        StEvent.write "## Recovery Options", StEvent.write "## Medication",
        StEvent.downloadButton "Download PDF" "Flu.pdf"]
    ∧ StEvent.error "Invalid percentage values in statistics." ∉
        [StEvent.write "## Statistics for Flu", StEvent.barChart 0 0,
         StEvent.write "## Recovery Options", StEvent.write "## Medication",
         StEvent.downloadButton "Download PDF" "Flu.pdf"] :=
  ⟨rfl, by decide⟩

/-- C5 counterexample: the parsed recovery rate `150.0` lies outside
`[0, 100]`, yet the chart is drawn with it and no notice is emitted — the
code performs no range validation at all. -/
theorem c5_out_of_range_counterexample :
    display_disease_info (PyVal.dict [("name", PyVal.str "X"),
        ("statistics", PyVal.dict [("recovery_rate", PyVal.str "150%"),
          ("mortality_rate", PyVal.str "5%")])]) =
      Except.ok [StEvent.write "## Statistics for X", StEvent.barChart 150 5,
        StEvent.write "## Recovery Options", StEvent.write "## Medication",
        StEvent.downloadButton "Download PDF" "X.pdf"]
    ∧ ((150 : ℚ) < 0 ∨ (100 : ℚ) < 150)
    ∧ StEvent.error "Invalid percentage values in statistics." ∉
        [StEvent.write "## Statistics for X", StEvent.barChart 150 5,
         StEvent.write "## Recovery Options", StEvent.write "## Medication",
         StEvent.downloadButton "Download PDF" "X.pdf"] :=
  ⟨rfl, Or.inr (by norm_num), by decide⟩

/-- C7 counterexample: for the record `{"medication": []}` (name absent),
the interactive view titles the output with the placeholder
`"Unknown Disease"` while the document renderer uses `"Disease Info"` —
the two renderers do not share a placeholder policy for an absent name
(and `total_cases` appears only in the document output). -/
theorem c7_placeholder_counterexample :
    display_disease_info (PyVal.dict [("medication", PyVal.list [])]) =
      Except.ok [StEvent.write "## Statistics for Unknown Disease", StEvent.barChart 0 0,
        StEvent.write "## Recovery Options", StEvent.write "## Medication",
        StEvent.downloadButton "Download PDF" "disease_info.pdf"]
    ∧ generate_pdf (PyVal.dict [("medication", PyVal.list [])]) =
        Except.ok [PdfEvent.cell "Disease Info", PdfEvent.cell "Statistics",
          PdfEvent.multiCell "Total Cases: N/A\nRecovery Rate: N/A\nMortality Rate: N/A",
          PdfEvent.cell "Recovery Options", PdfEvent.cell "Medication"]
    ∧ ("Unknown Disease" : String) ≠ "Disease Info" :=
  ⟨rfl, rfl, by decide⟩

/-! ### Monad-reduction helpers and renderer characterizations -/

@[simp] lemma exc_bind_ok {α β : Type} (a : α) (f : α → Except PyErr β) :
    (Except.ok a : Except PyErr α) >>= f = f a := rfl

@[simp] lemma exc_bind_error {α β : Type} (e : PyErr) (f : α → Except PyErr β) :
    (Except.error e : Except PyErr α) >>= f = Except.error e := rfl

lemma excIsOk_exists {α : Type} {x : Except PyErr α} (h : excIsOk x = true) :
    ∃ a, x = Except.ok a := by
  cases x <;> simp [excIsOk] at h ⊢

/-- Characterization of the statistics chart block over string-valued
rates: the chart is drawn exactly when both strings convert with `float`
after `%`-stripping, and otherwise the notice is shown. -/
lemma st_stats_chart_spec (stats : PyVal) (rrs mrs : String)
    (hr : pyGet stats "recovery_rate" (PyVal.str "0%") = Except.ok (PyVal.str rrs))
    (hm : pyGet stats "mortality_rate" (PyVal.str "0%") = Except.ok (PyVal.str mrs)) :
    (∃ r m, pyFloatOfString (stripSet ['%'] rrs) = some r
      ∧ pyFloatOfString (stripSet ['%'] mrs) = some m
      ∧ st_stats_chart stats = Except.ok [StEvent.barChart r m])
    ∨ ((pyFloatOfString (stripSet ['%'] rrs) = Option.none
        ∨ pyFloatOfString (stripSet ['%'] mrs) = Option.none)
      ∧ st_stats_chart stats = Except.ok
          [StEvent.error "Invalid percentage values in statistics."]) := by
  rcases hfr : pyFloatOfString (stripSet ['%'] rrs) with _ | r
  · exact Or.inr ⟨Or.inl rfl, by simp [st_stats_chart, hr, hm, pyStripChars, hfr]⟩
  · rcases hfm : pyFloatOfString (stripSet ['%'] mrs) with _ | m
    · exact Or.inr ⟨Or.inr rfl, by simp [st_stats_chart, hr, hm, pyStripChars, hfr, hfm]⟩
    · exact Or.inl ⟨r, m, rfl, rfl, by simp [st_stats_chart, hr, hm, pyStripChars, hfr, hfm]⟩

lemma isStrVal_exists {v : PyVal} (h : isStrVal v = true) : ∃ s, v = PyVal.str s := by
  cases v <;> simp [isStrVal] at h ⊢

lemma wtLookup_getD {entries : List (String × PyVal)} {k : String} {p : PyVal → Bool}
    {d : PyVal} (h : wtLookup entries k p = true) (hd : p d = true) :
    p ((entries.lookup k).getD d) = true := by
  unfold wtLookup at h
  cases hl : entries.lookup k with
  | none => simpa using hd
  | some v => rw [hl] at h; simpa using h

lemma wtStats_dict {v : PyVal} (h : wtStats v = true) :
    ∃ es, v = PyVal.dict es := by
  cases v <;> simp [wtStats] at h ⊢

lemma wtOptions_dict {v : PyVal} (h : wtOptions v = true) :
    ∃ ops, v = PyVal.dict ops ∧ ops.all (fun kv => isStrVal kv.2) = true := by
  cases v <;> simp [wtOptions] at h ⊢
  · exact h

lemma wtMeds_list {v : PyVal} (h : wtMeds v = true) :
    ∃ ms, v = PyVal.list ms ∧ ms.all wtMed = true := by
  cases v <;> simp [wtMeds] at h ⊢
  · exact h

lemma st_stats_chart_total {stats : PyVal} (h : wtStats stats = true) :
    ∃ evs, st_stats_chart stats = Except.ok evs := by
  obtain ⟨es, rfl⟩ := wtStats_dict h
  simp only [wtStats, Bool.and_eq_true] at h
  obtain ⟨h1, h2⟩ := h
  obtain ⟨rrs, hrs⟩ := isStrVal_exists
    (wtLookup_getD h1 (show isStrVal (PyVal.str "0%") = true from rfl))
  obtain ⟨mrs, hms⟩ := isStrVal_exists
    (wtLookup_getD h2 (show isStrVal (PyVal.str "0%") = true from rfl))
  have hr : pyGet (PyVal.dict es) "recovery_rate" (PyVal.str "0%") =
      Except.ok (PyVal.str rrs) := by simp [pyGet, hrs]
  have hm : pyGet (PyVal.dict es) "mortality_rate" (PyVal.str "0%") =
      Except.ok (PyVal.str mrs) := by simp [pyGet, hms]
  rcases st_stats_chart_spec _ _ _ hr hm with ⟨r, m, _, _, hc⟩ | ⟨_, hc⟩ <;> exact ⟨_, hc⟩

lemma asStrList_total {xs : List PyVal} (h : xs.all isStrVal = true) :
    ∃ ss, asStrList xs = Except.ok ss := by
  induction xs with
  | nil => exact ⟨[], rfl⟩
  | cons x rest ih =>
      simp only [List.all_cons, Bool.and_eq_true] at h
      obtain ⟨s, rfl⟩ := isStrVal_exists h.1
      obtain ⟨ss, hss⟩ := ih h.2
      exact ⟨s :: ss, by simp [asStrList, hss]⟩

lemma pyJoin_strList {v : PyVal} (h : isStrListVal v = true) :
    ∃ s, pyJoin ", " v = Except.ok s := by
  cases v <;> simp [isStrListVal] at h
  case list xs =>
    obtain ⟨ss, hss⟩ := asStrList_total (by simpa using h)
    exact ⟨", ".intercalate ss, by simp [pyJoin, hss]⟩

lemma med_content_total {med : PyVal} (h : wtMed med = true) :
    ∃ c, med_content med = Except.ok c := by
  cases med <;> simp [wtMed] at h
  case dict entries =>
    have hse : isStrListVal ((entries.lookup "side_effects").getD (PyVal.list [])) = true :=
      wtLookup_getD (by simpa [wtMed] using h)
        (show isStrListVal (PyVal.list []) = true from rfl)
    obtain ⟨s, hs⟩ := pyJoin_strList hse
    refine ⟨⟨pyStr ((entries.lookup "name").getD (PyVal.str "Unknown")),
      pyStr ((entries.lookup "dosage").getD (PyVal.str "N/A")), s⟩, ?_⟩
    simp [med_content, pyGet, hs]

lemma med_contents_total {ms : List PyVal} (h : ms.all wtMed = true) :
    ∃ cs, med_contents ms = Except.ok cs := by
  induction ms with
  | nil => exact ⟨[], rfl⟩
  | cons m rest ih =>
      simp only [List.all_cons, Bool.and_eq_true] at h
      obtain ⟨c, hc⟩ := med_content_total h.1
      obtain ⟨cs, hcs⟩ := ih h.2
      exact ⟨c :: cs, by simp [med_contents, hc, hcs]⟩

/-- The two medication-entry renderings are determined by the shared
`med_content` projection: same name, same dosage, same joined
side-effects, same placeholders. -/
lemma med_entry_spec (idx : Nat) (med : PyVal) (c : MedContent)
    (h : med_content med = Except.ok c) :
    st_med_entry idx med = Except.ok
      [StEvent.subheader (toString idx ++ ". " ++ c.name),
       StEvent.write ("**Dosage:** " ++ c.dosage),
       StEvent.write ("**Side Effects:** " ++ c.sideEffects)]
    ∧ pdf_med_entry idx med = Except.ok
      [PdfEvent.cell (toString idx ++ ". " ++ c.name),
       PdfEvent.multiCell ("Dosage: " ++ c.dosage ++ "\nSide Effects: " ++ c.sideEffects)] := by
  cases med <;> simp [med_content, pyGet] at h
  case dict entries =>
    rcases hj : pyJoin ", " ((entries.lookup "side_effects").getD (PyVal.list [])) with e | s
    · rw [hj] at h; simp at h
    · rw [hj] at h
      simp only [exc_bind_ok] at h
      injection h with h
      subst h
      constructor <;> simp [st_med_entry, pdf_med_entry, pyGet, hj]

lemma med_loop_spec (meds : List PyVal) (cs : List MedContent) (start : Nat)
    (h : med_contents meds = Except.ok cs) :
    st_med_loop start meds = Except.ok (specStMedSection start cs)
    ∧ pdf_med_loop start meds = Except.ok (specPdfMedSection start cs) := by
  induction meds generalizing cs start with
  | nil =>
      simp [med_contents] at h
      subst h
      simp [st_med_loop, pdf_med_loop, specStMedSection, specPdfMedSection]
  | cons m rest ih =>
      rcases hc : med_content m with e | c
      · rw [med_contents, hc] at h; simp at h
      · rcases hcs : med_contents rest with e | cs2
        · rw [med_contents, hc, hcs] at h; simp at h
        · rw [med_contents, hc, hcs] at h
          simp only [exc_bind_ok] at h
          injection h with h
          subst h
          obtain ⟨h1, h2⟩ := med_entry_spec start m c hc
          obtain ⟨ih1, ih2⟩ := ih cs2 (start + 1) hcs
          constructor
          · simp [st_med_loop, h1, ih1, specStMedSection, List.enumFrom]
          · simp [pdf_med_loop, h2, ih2, specPdfMedSection, List.enumFrom]

/-- The document recovery-options loop over string descriptions: same
label/description content, in stored order, as the interactive section. -/
lemma pdf_ro_loop_spec (pairs : List (String × PyVal))
    (h : pairs.all (fun kv => isStrVal kv.2) = true) :
    pdf_ro_loop pairs = Except.ok
      ((pairs.map (fun kv => [PdfEvent.cell ("- " ++ kv.1),
        PdfEvent.multiCell (pyStr kv.2)])).flatten) := by
  induction pairs with
  | nil => rfl
  | cons kv rest ih =>
      simp only [List.all_cons, Bool.and_eq_true] at h
      obtain ⟨s, hs⟩ := isStrVal_exists h.1
      simp [pdf_ro_loop, hs, pdfTextArg, ih h.2, pyStr]

lemma med_loop_total {ms : List PyVal} (h : ms.all wtMed = true) (start : Nat) :
    (∃ evs, st_med_loop start ms = Except.ok evs)
    ∧ (∃ pevs, pdf_med_loop start ms = Except.ok pevs) := by
  obtain ⟨cs, hcs⟩ := med_contents_total h
  obtain ⟨h1, h2⟩ := med_loop_spec ms cs start hcs
  exact ⟨⟨_, h1⟩, ⟨_, h2⟩⟩

lemma wellTypedRecord_fields {entries : List (String × PyVal)}
    (h : wellTypedRecord (PyVal.dict entries) = true) :
    wtLookup entries "statistics" wtStats = true
    ∧ wtLookup entries "recovery_options" wtOptions = true
    ∧ wtLookup entries "medication" wtMeds = true := by
  simpa [wellTypedRecord, Bool.and_eq_true, and_assoc] using h

lemma generate_pdf_total {info : PyVal} (h : wellTypedRecord info = true) :
    ∃ pevs, generate_pdf info = Except.ok pevs := by
  obtain ⟨entries, rfl⟩ : ∃ entries, info = PyVal.dict entries := by
    cases info
    case dict entries => exact ⟨entries, rfl⟩
    all_goals simp [wellTypedRecord] at h
  obtain ⟨hst, hro, hmd⟩ := wellTypedRecord_fields h
  obtain ⟨es, hes⟩ := wtStats_dict
    (wtLookup_getD hst (show wtStats (PyVal.dict []) = true from rfl))
  obtain ⟨ops, hops, hopsw⟩ := wtOptions_dict
    (wtLookup_getD hro (show wtOptions (PyVal.dict []) = true from rfl))
  obtain ⟨ms, hms, hmsw⟩ := wtMeds_list
    (wtLookup_getD hmd (show wtMeds (PyVal.list []) = true from rfl))
  obtain ⟨medEvs, hmedloop⟩ := (med_loop_total hmsw 1).2
  have hroloop := pdf_ro_loop_spec ops hopsw
  apply excIsOk_exists
  simp only [generate_pdf, pyGet, pyItems, pyIterList, hes, hops, hms,
    hroloop, hmedloop, exc_bind_ok, excIsOk]

lemma display_total {info : PyVal} (h : wellTypedRecord info = true) :
    ∃ evs, display_disease_info info = Except.ok evs := by
  obtain ⟨entries, rfl⟩ : ∃ entries, info = PyVal.dict entries := by
    cases info
    case dict entries => exact ⟨entries, rfl⟩
    all_goals simp [wellTypedRecord] at h
  by_cases hf : pyFalsy (PyVal.dict entries) = true
  · exact ⟨[], by simp [display_disease_info, hf]⟩
  · obtain ⟨hst, hro, hmd⟩ := wellTypedRecord_fields h
    have hstats : wtStats ((entries.lookup "statistics").getD (PyVal.dict [])) = true :=
      wtLookup_getD hst (show wtStats (PyVal.dict []) = true from rfl)
    obtain ⟨statEvs, hchart⟩ := st_stats_chart_total hstats
    obtain ⟨ops, hops, _⟩ := wtOptions_dict
      (wtLookup_getD hro (show wtOptions (PyVal.dict []) = true from rfl))
    obtain ⟨ms, hms, hmsw⟩ := wtMeds_list
      (wtLookup_getD hmd (show wtMeds (PyVal.list []) = true from rfl))
    obtain ⟨medEvs, hmedloop⟩ := (med_loop_total hmsw 1).1
    obtain ⟨pevs, hpdf⟩ := generate_pdf_total h
    apply excIsOk_exists
    simp only [display_disease_info, hf, pyGet, pyItems, pyIterList, hops, hms,
      hchart, hmedloop, hpdf, exc_bind_ok, excIsOk, if_false, Bool.false_eq_true, if_neg]

/-! ### Claims C3, C4, C5: amended renderer guarantees -/

/-- C3 (amended): both renderers are total over structurally present
records whose sub-fields, when present, have the documented types
(statistics a dict with string rates; recovery options a mapping with
string descriptions; medication a list of dicts whose side-effect lists
hold strings) — missing fields are tolerated and render as placeholders.
Sub-fields of unexpected type can raise (see the counterexample), so the
typing restriction is what the counterexample forces. -/
theorem c3_totality_amended (info : PyVal) (h : wellTypedRecord info = true) :
    (∃ evs, display_disease_info info = Except.ok evs)
    ∧ (∃ pevs, generate_pdf info = Except.ok pevs) :=
  ⟨display_total h, generate_pdf_total h⟩

/-- Witness for C3 (amended) on a record with absent statistics. -/
theorem c3_totality_amended_witness :
    (∃ evs, display_disease_info (PyVal.dict [("name", PyVal.str "Flu"),
      ("recovery_options", PyVal.dict [("Rest", PyVal.str "Sleep well")]),
      ("medication", PyVal.list [PyVal.dict [("name", PyVal.str "A")]])]) = Except.ok evs)
    ∧ (∃ pevs, generate_pdf (PyVal.dict [("name", PyVal.str "Flu"),
      ("recovery_options", PyVal.dict [("Rest", PyVal.str "Sleep well")]),
      ("medication", PyVal.list [PyVal.dict [("name", PyVal.str "A")]])]) = Except.ok pevs) :=
  c3_totality_amended _ (by decide)

/-- C4 (amended): for string-valued rate fields (with absent rates
defaulting to `"0%"`, hence charting as `0.0` rather than being skipped),
the chart is drawn if and only if both strings convert to floats after
`%`-stripping, with exactly the converted values; when either conversion
fails, the chart is skipped and the "invalid percentage" notice is shown
instead (the remaining sections still render, as `st_stats_chart` returns
normally in both cases). -/
theorem c4_chart_condition_amended (stats : PyVal) (rrs mrs : String)
    (hr : pyGet stats "recovery_rate" (PyVal.str "0%") = Except.ok (PyVal.str rrs))
    (hm : pyGet stats "mortality_rate" (PyVal.str "0%") = Except.ok (PyVal.str mrs)) :
    (∃ r m, pyFloatOfString (stripSet ['%'] rrs) = some r
      ∧ pyFloatOfString (stripSet ['%'] mrs) = some m
      ∧ st_stats_chart stats = Except.ok [StEvent.barChart r m])
    ∨ ((pyFloatOfString (stripSet ['%'] rrs) = Option.none
        ∨ pyFloatOfString (stripSet ['%'] mrs) = Option.none)
      ∧ st_stats_chart stats = Except.ok
          [StEvent.error "Invalid percentage values in statistics."]) :=
  st_stats_chart_spec stats rrs mrs hr hm

/-- Witness for C4 (amended) at `"70%"`/`"5%"` (the chart branch). -/
theorem c4_chart_condition_amended_witness :
    (∃ r m, pyFloatOfString (stripSet ['%'] "70%") = some r
      ∧ pyFloatOfString (stripSet ['%'] "5%") = some m
      ∧ st_stats_chart (PyVal.dict [("recovery_rate", PyVal.str "70%"),
          ("mortality_rate", PyVal.str "5%")]) = Except.ok [StEvent.barChart r m])
    ∨ ((pyFloatOfString (stripSet ['%'] "70%") = Option.none
        ∨ pyFloatOfString (stripSet ['%'] "5%") = Option.none)
      ∧ st_stats_chart (PyVal.dict [("recovery_rate", PyVal.str "70%"),
          ("mortality_rate", PyVal.str "5%")]) = Except.ok
          [StEvent.error "Invalid percentage values in statistics."]) :=
  c4_chart_condition_amended (PyVal.dict [("recovery_rate", PyVal.str "70%"),
    ("mortality_rate", PyVal.str "5%")]) "70%" "5%" (by rfl) (by rfl)

/-- C5 (amended): the code performs no range validation on the parsed
rates — whenever both rate strings convert to floats, the chart is drawn
with exactly those values (so values outside `[0, 100]` are charted
unchanged rather than rejected or clamped). -/
theorem c5_no_range_check_amended (stats : PyVal) (rrs mrs : String) (r m : ℚ)
    (hr : pyGet stats "recovery_rate" (PyVal.str "0%") = Except.ok (PyVal.str rrs))
    (hm : pyGet stats "mortality_rate" (PyVal.str "0%") = Except.ok (PyVal.str mrs))
    (hfr : pyFloatOfString (stripSet ['%'] rrs) = some r)
    (hfm : pyFloatOfString (stripSet ['%'] mrs) = some m) :
    st_stats_chart stats = Except.ok [StEvent.barChart r m] := by
  simp [st_stats_chart, hr, hm, pyStripChars, hfr, hfm]

/-- Witness for C5 (amended): an out-of-range rate of `150%` is charted. -/
theorem c5_no_range_check_amended_witness :
    st_stats_chart (PyVal.dict [("recovery_rate", PyVal.str "150%"),
      ("mortality_rate", PyVal.str "5%")]) = Except.ok [StEvent.barChart 150 5]
    ∧ (100 : ℚ) < 150 :=
  ⟨c5_no_range_check_amended (PyVal.dict [("recovery_rate", PyVal.str "150%"),
    ("mortality_rate", PyVal.str "5%")]) "150%" "5%" 150 5 (by rfl) (by rfl) (by rfl) (by rfl),
   by norm_num⟩

/-! ### Claims C7, C8: section content of the two renderers -/

/-- C7 (amended): the medication and recovery-options sections of the two
renderers are content-equivalent — the same entries, in the same order,
with the same placeholder policy (`"Unknown"` for a missing medication
name, `"N/A"` for a missing dosage, comma-joined side effects): both
medication renderings are determined by the shared `med_content`
projection, and both option sections emit the same label/description
pairs.  (Full record equivalence fails: the title placeholder and the
statistics content differ — see the counterexample.) -/
theorem c7_section_equivalence_amended :
    (∀ (idx : Nat) (med : PyVal) (c : MedContent), med_content med = Except.ok c →
      st_med_entry idx med = Except.ok
        [StEvent.subheader (toString idx ++ ". " ++ c.name),
         StEvent.write ("**Dosage:** " ++ c.dosage),
         StEvent.write ("**Side Effects:** " ++ c.sideEffects)]
      ∧ pdf_med_entry idx med = Except.ok
        [PdfEvent.cell (toString idx ++ ". " ++ c.name),
         PdfEvent.multiCell ("Dosage: " ++ c.dosage ++ "\nSide Effects: " ++ c.sideEffects)])
    ∧ (∀ pairs : List (String × PyVal), pairs.all (fun kv => isStrVal kv.2) = true →
      st_ro_events pairs =
        (pairs.map (fun kv => [StEvent.subheader kv.1, StEvent.write (pyStr kv.2)])).flatten
      ∧ pdf_ro_loop pairs = Except.ok
          ((pairs.map (fun kv => [PdfEvent.cell ("- " ++ kv.1),
            PdfEvent.multiCell (pyStr kv.2)])).flatten)) :=
  ⟨fun idx med c h => med_entry_spec idx med c h,
   fun pairs h => ⟨rfl, pdf_ro_loop_spec pairs h⟩⟩

/-- Witness for C7 (amended) on one medication entry and one option. -/
theorem c7_section_equivalence_amended_witness :
    (st_med_entry 1 (PyVal.dict [("name", PyVal.str "A"), ("dosage", PyVal.str "1mg")]) =
        Except.ok [StEvent.subheader "1. A", StEvent.write "**Dosage:** 1mg",
          StEvent.write "**Side Effects:** "]
      ∧ pdf_med_entry 1 (PyVal.dict [("name", PyVal.str "A"), ("dosage", PyVal.str "1mg")]) =
        Except.ok [PdfEvent.cell "1. A", PdfEvent.multiCell "Dosage: 1mg\nSide Effects: "])
    ∧ (st_ro_events [("Rest", PyVal.str "Sleep well")] =
        [StEvent.subheader "Rest", StEvent.write "Sleep well"]
      ∧ pdf_ro_loop [("Rest", PyVal.str "Sleep well")] =
        Except.ok [PdfEvent.cell "- Rest", PdfEvent.multiCell "Sleep well"]) :=
  ⟨c7_section_equivalence_amended.1 1
      (PyVal.dict [("name", PyVal.str "A"), ("dosage", PyVal.str "1mg")])
      ⟨"A", "1mg", ""⟩ (by rfl),
   c7_section_equivalence_amended.2 [("Rest", PyVal.str "Sleep well")] (by rfl)⟩

/-- C8: for every medication sequence whose entries project to content,
both renderers list the entries 1-indexed in input order as
`"<n>. <name>"`, each followed by its dosage and its side effects joined
with `", "`; an empty side-effects list joins to the empty string without
error. -/
theorem c8_medication_listing (meds : List PyVal) (cs : List MedContent)
    (h : med_contents meds = Except.ok cs) :
    st_med_loop 1 meds = Except.ok (specStMedSection 1 cs)
    ∧ pdf_med_loop 1 meds = Except.ok (specPdfMedSection 1 cs)
    ∧ pyJoin ", " (PyVal.list []) = Except.ok "" :=
  ⟨(med_loop_spec meds cs 1 h).1, (med_loop_spec meds cs 1 h).2, rfl⟩

/-- Witness for C8 on a two-medication record. -/
theorem c8_medication_listing_witness :
    st_med_loop 1
        [PyVal.dict [("name", PyVal.str "A"), ("dosage", PyVal.str "1mg"),
          ("side_effects", PyVal.list [PyVal.str "x", PyVal.str "y"])],
         PyVal.dict [("name", PyVal.str "B")]] =
      Except.ok [StEvent.subheader "1. A", StEvent.write "**Dosage:** 1mg",
        StEvent.write "**Side Effects:** x, y",
        StEvent.subheader "2. B", StEvent.write "**Dosage:** N/A",
        StEvent.write "**Side Effects:** "] := by
  have h := (c8_medication_listing
    [PyVal.dict [("name", PyVal.str "A"), ("dosage", PyVal.str "1mg"),
      ("side_effects", PyVal.list [PyVal.str "x", PyVal.str "y"])],
     PyVal.dict [("name", PyVal.str "B")]]
    [⟨"A", "1mg", "x, y"⟩, ⟨"B", "N/A", ""⟩] (by rfl)).1
  rw [h]
  rfl

end Health
